import Mathlib

/-!
Verification of the firewoodbank2 work-order / inventory core.

The embedding follows the implementations registered in the running binary,
`src-tauri/src/main.rs` (the `commands/` directory is not declared in the
binary's module tree — `main.rs` declares only `mod db; mod sync;` — and its
`work_orders.rs` contains duplicate function definitions, so it is an unused
historical snapshot).  The field-level audit helpers (`audit_change` and the
`log_field` closure of `update_client`) exist only in
`commands/audit.rs` / `commands/clients.rs` and are embedded from there.

Modelling conventions:
* SQL tables are Lean lists of row structures, kept in insertion order
  (`created_at` ascending), so `ORDER BY created_at ASC LIMIT 1` is `find?`.
* `ORDER BY` clauses of list queries are elided (the verified claims are
  order-independent); soft-delete `WHERE is_deleted = 0` filters are kept.
* `f64` cord quantities are modelled as `ℚ`; the arithmetic involved
  (addition, subtraction, comparison) is exact for the in-range values the
  program manipulates.
* Rust `to_lowercase` / `eq_ignore_ascii_case` are modelled with
  `asciiLower` (ASCII lowercasing; the data involved is ASCII).
* A Tauri command is a function from the database state to
  `resulting state × Option Err`: the SQL transaction in the source rolls
  back on error, so on error the business tables revert while audit rows
  written outside the transaction (fire-and-forget `audit_db`) remain.
* `serde_json::from_str::<Vec<String>>` is modelled by an executable JSON
  string-array parser (`parseStringList`); `\uXXXX` escapes are not modelled
  (they never arise in the assignee data).
-/

attribute [local semireducible] Rat.add Rat.sub

/-- ASCII lowercasing of one character. -/
def asciiLowerChar (c : Char) : Char :=
  if 65 ≤ c.toNat ∧ c.toNat ≤ 90 then Char.ofNat (c.toNat + 32) else c

/-- Models Rust `to_lowercase` / SQL `lower` on the ASCII data the program
handles. -/
def asciiLower (s : String) : String :=
  String.mk (s.toList.map asciiLowerChar)

/-- Case-insensitive substring test: models SQL `lower(col) LIKE pat`
with a `%pat%` pattern (after both sides are lowercased by the caller). -/
def containsSub (pat : List Char) : List Char → Bool
  | [] => pat.isEmpty
  | c :: t => pat.isPrefixOf (c :: t) || containsSub pat t

/-- `strContains s pat` is true when `pat` occurs inside `s`. -/
def strContains (s pat : String) : Bool :=
  containsSub pat.toList s.toList

/-- Drop leading JSON whitespace. -/
def dropBlank (cs : List Char) : List Char :=
  cs.dropWhile (fun c => c = ' ' || c = '\n' || c = '\t' || c = '\r')

/-- Decode the character following a backslash in a JSON string
(`\uXXXX` escapes are not modelled). -/
def unescape (c : Char) : Option Char :=
  if c = '"' ∨ c = '\\' ∨ c = '/' then some c
  else if c = 'n' then some '\n'
  else if c = 't' then some '\t'
  else if c = 'r' then some '\r'
  else if c = 'b' then some (Char.ofNat 8)
  else if c = 'f' then some (Char.ofNat 12)
  else none

/-- Read the body of a JSON string after its opening quote, producing the
decoded characters together with the input remaining after the closing
quote. -/
def readQuoted : List Char → Option (List Char × List Char)
  | [] => none
  | c :: rest =>
    if c = '"' then some ([], rest)
    else if c = '\\' then
      match rest with
      | [] => none
      | e :: more => do
        let d ← unescape e
        let (body, rem) ← readQuoted more
        pure (d :: body, rem)
    else do
      let (body, rem) ← readQuoted rest
      pure (c :: body, rem)

/-- Read the comma-separated strings of a non-empty JSON string array up to
the closing bracket, requiring only blanks afterwards.  The fuel argument
(seeded with the input length) only discharges totality. -/
def readElems : Nat → List Char → Option (List String)
  | 0, _ => none
  | fuel + 1, cs =>
    match dropBlank cs with
    | [] => none
    | q :: rest =>
      if q = '"' then
        (readQuoted rest).bind (fun br =>
          match dropBlank br.2 with
          | [] => none
          | sep :: more =>
            if sep = ',' then (readElems fuel more).map (String.mk br.1 :: ·)
            else if sep = ']' then
              if (dropBlank more).isEmpty then some [String.mk br.1] else none
            else none)
      else none

/-- Models `serde_json::from_str::<Vec<String>>`: parse a JSON array of
strings, `none` on malformed input. -/
def parseStringList (s : String) : Option (List String) :=
  match dropBlank s.toList with
  | [] => none
  | b :: rest =>
    if b = '[' then
      match dropBlank rest with
      | [] => none
      | c :: more =>
        if c = ']' then if (dropBlank more).isEmpty then some [] else none
        else readElems (s.length + 1) rest
    else none

/-- Models `serde_json::from_str(x.as_deref().unwrap_or("[]")).unwrap_or_default()`:
the effective assignee list read from a nullable JSON text column. -/
def parseAssignees (o : Option String) : List String :=
  (parseStringList (o.getD "[]")).getD []

/-- Decidable equality for `Except` results. -/
instance {e a : Type} [DecidableEq e] [DecidableEq a] : DecidableEq (Except e a) := by
  intro x y
  cases x <;> cases y
  case error.error u v =>
    exact if h : u = v then isTrue (by rw [h]) else isFalse (by simp [h])
  case ok.ok u v =>
    exact if h : u = v then isTrue (by rw [h]) else isFalse (by simp [h])
  case error.ok u v => exact isFalse (by simp)
  case ok.error u v => exact isFalse (by simp)

/-- SQL COALESCE on two nullable values. -/
def coalesce {α : Type} (a b : Option α) : Option α :=
  match a with
  | some x => some x
  | none => b

/-! ## Data model (rows of the SQLite tables, limited to the columns the
verified operations read or write) -/

/-- A row of `inventory_items`. -/
structure InventoryItem where
  id : String
  name : String
  unit : String
  quantity_on_hand : ℚ
  reserved_quantity : ℚ
  is_deleted : Bool
deriving Repr, DecidableEq

/-- A row of `work_orders`. -/
structure WorkOrder where
  id : String
  client_id : Option String
  client_name : String
  status : String
  scheduled_date : Option String
  gate_combo : Option String
  notes : Option String
  telephone : Option String
  physical_address_line1 : Option String
  physical_address_city : Option String
  physical_address_state : Option String
  physical_address_postal_code : Option String
  mileage : Option ℚ
  wood_size_label : Option String
  wood_size_other : Option String
  delivery_size_label : Option String
  delivery_size_cords : Option ℚ
  assignees_json : Option String
  created_by_display : Option String
  is_deleted : Bool
deriving Repr, DecidableEq

/-- The `WorkOrderRow` DTO returned by `list_work_orders` in main.rs. -/
structure WorkOrderRow where
  id : String
  client_name : String
  status : String
  scheduled_date : Option String
  gate_combo : Option String
  notes : Option String
  telephone : Option String
  physical_address_line1 : Option String
  physical_address_city : Option String
  physical_address_state : Option String
  physical_address_postal_code : Option String
  mileage : Option ℚ
  wood_size_label : Option String
  wood_size_other : Option String
  delivery_size_label : Option String
  delivery_size_cords : Option ℚ
  assignees_json : Option String
  created_by_display : Option String
deriving Repr, DecidableEq

/-- The SELECT of `list_work_orders`, including
`COALESCE(assignees_json, '[]') as assignees_json`. -/
def toWorkOrderRow (wo : WorkOrder) : WorkOrderRow :=
  { id := wo.id
    client_name := wo.client_name
    status := wo.status
    scheduled_date := wo.scheduled_date
    gate_combo := wo.gate_combo
    notes := wo.notes
    telephone := wo.telephone
    physical_address_line1 := wo.physical_address_line1
    physical_address_city := wo.physical_address_city
    physical_address_state := wo.physical_address_state
    physical_address_postal_code := wo.physical_address_postal_code
    mileage := wo.mileage
    wood_size_label := wo.wood_size_label
    wood_size_other := wo.wood_size_other
    delivery_size_label := wo.delivery_size_label
    delivery_size_cords := wo.delivery_size_cords
    assignees_json := some (wo.assignees_json.getD "[]")
    created_by_display := wo.created_by_display }

/-- The `ClientRow` DTO returned by `list_clients` in main.rs. -/
structure ClientRow where
  id : String
  name : String
  email : Option String
  telephone : Option String
  approval_status : String
  date_of_onboarding : Option String
  how_did_they_hear_about_us : Option String
  referring_agency : Option String
  denial_reason : Option String
  physical_address_line1 : String
  physical_address_line2 : Option String
  physical_address_city : String
  physical_address_state : String
  physical_address_postal_code : String
  mailing_address_line1 : Option String
  mailing_address_line2 : Option String
  mailing_address_city : Option String
  mailing_address_state : Option String
  mailing_address_postal_code : Option String
  gate_combo : Option String
  notes : Option String
  wood_size_label : Option String
  wood_size_other : Option String
  directions : Option String
  created_at : String
deriving Repr, DecidableEq

/-- A row of `clients`: the listed columns plus the soft-delete flag. -/
structure Client extends ClientRow where
  is_deleted : Bool
deriving Repr, DecidableEq

/-- A row of `delivery_events`. -/
structure DeliveryEvent where
  id : String
  title : String
  description : Option String
  event_type : String
  work_order_id : Option String
  start_date : String
  end_date : Option String
  color_code : Option String
  assigned_user_ids_json : Option String
  is_deleted : Bool
deriving Repr, DecidableEq

/-- A row of `audit_logs` (id and created_at elided). -/
structure AuditRow where
  event : String
  role : String
  actor : String
  entity : Option String
  entity_id : Option String
  field : Option String
  old_value : Option String
  new_value : Option String
deriving Repr, DecidableEq

/-- The SQLite database state. -/
structure DB where
  clients : List Client
  work_orders : List WorkOrder
  inventory_items : List InventoryItem
  delivery_events : List DeliveryEvent
  audit_logs : List AuditRow
deriving Repr, DecidableEq

/-- The error taxonomy: one constructor per distinct error return site of
the embedded commands (the Rust code returns descriptive strings). -/
inductive Err where
  | onlyStaffOrAdminCreate
  | onlyAdminOrLeadAssign
  | workOrderNotFound
  | mileageRequired
  | volunteerForbidden
  | driverStatusRestricted
  | noTrackedStock
  | insufficientInventory (requested available : ℚ)
deriving Repr, DecidableEq

/-! ## Audit recorder -/

/-- `audit_db` (main.rs): best-effort insert of an event-only audit row. -/
def auditEventRow (event role actor : String) : AuditRow :=
  { event := event, role := role, actor := actor, entity := none,
    entity_id := none, field := none, old_value := none, new_value := none }

/-- Append the `audit_db` event row to the database (errors swallowed). -/
def audit_db (db : DB) (event role actor : String) : DB :=
  { db with audit_logs := db.audit_logs ++ [auditEventRow event role actor] }

/-- `audit_change` (commands/audit.rs): unconditionally append one
field-diff audit row. -/
def audit_change (log : List AuditRow) (event role actor entity entity_id field : String)
    (old_value new_value : Option String) : List AuditRow :=
  log ++ [{ event := event, role := role, actor := actor, entity := some entity,
            entity_id := some entity_id, field := some field,
            old_value := old_value, new_value := new_value }]

/-- The `log_field` closure of `update_client` (commands/clients.rs,
lines 470-525): record a field diff only when the values differ. -/
def update_client_log_field (log : List AuditRow) (role actor entity_id field : String)
    (old_val new_val : Option String) : List AuditRow :=
  if old_val ≠ new_val then
    audit_change log "update_client" role actor "clients" entity_id field old_val new_val
  else log

/-! ## Inventory ledger -/

/-- The reserving statuses. -/
def reserveStates : List String := ["scheduled", "in_progress"]

/-- The wood-stock heuristic:
`lower(unit) LIKE '%cord%' OR lower(name) LIKE '%wood%'`. -/
def isWoodStock (it : InventoryItem) : Bool :=
  strContains (asciiLower it.unit) "cord" || strContains (asciiLower it.name) "wood"

/-- Resolve the tracked wood-stock record: first non-deleted match in
creation order (`ORDER BY created_at ASC LIMIT 1`). -/
def resolveWoodStock (items : List InventoryItem) : Option InventoryItem :=
  items.find? (fun it => !it.is_deleted && isWoodStock it)

/-- `adjust_inventory_for_transition_tx` (main.rs, lines 1226-1324). -/
def adjustInventoryForTransition (previous_status next_status : String)
    (delivery_size_cords : ℚ) (items : List InventoryItem) :
    Except Err (List InventoryItem) :=
  if delivery_size_cords ≤ 0 then .ok items
  else
    let prev_reserved := reserveStates.contains (asciiLower previous_status)
    let next_reserved := reserveStates.contains (asciiLower next_status)
    match resolveWoodStock items with
    | none => .error .noTrackedStock
    | some record =>
      let reserved := record.reserved_quantity
      let on_hand := record.quantity_on_hand
      let step :=
        if prev_reserved = false ∧ next_reserved = true then
          let available := on_hand - reserved
          if available < delivery_size_cords then
            Except.error (Err.insufficientInventory delivery_size_cords available)
          else Except.ok (reserved + delivery_size_cords)
        else if prev_reserved = true ∧ next_reserved = false then
          Except.ok (reserved - delivery_size_cords)
        else Except.ok reserved
      match step with
      | .error e => .error e
      | .ok reserved1 =>
        let on_hand1 :=
          if asciiLower next_status = "completed" then on_hand - delivery_size_cords
          else on_hand
        let reserved2 := if reserved1 < 0 then 0 else reserved1
        let on_hand2 := if on_hand1 < 0 then 0 else on_hand1
        let reserved3 := if reserved2 > on_hand2 then on_hand2 else reserved2
        .ok (items.map (fun it =>
          if it.id = record.id then
            { it with reserved_quantity := reserved3, quantity_on_hand := on_hand2 }
          else it))

/-! ## Command inputs -/

/-- `WorkOrderInput` (main.rs). -/
structure WorkOrderInput where
  client_id : String
  client_title : Option String
  client_name : String
  physical_address_line1 : String
  physical_address_line2 : Option String
  physical_address_city : String
  physical_address_state : String
  physical_address_postal_code : String
  mailing_address_line1 : Option String
  mailing_address_line2 : Option String
  mailing_address_city : Option String
  mailing_address_state : Option String
  mailing_address_postal_code : Option String
  telephone : Option String
  email : Option String
  directions : Option String
  gate_combo : Option String
  mileage : Option ℚ
  other_heat_source_gas : Bool
  other_heat_source_electric : Bool
  other_heat_source_other : Option String
  notes : Option String
  scheduled_date : Option String
  status : Option String
  wood_size_label : Option String
  wood_size_other : Option String
  delivery_size_label : Option String
  delivery_size_cords : Option ℚ
  assignees_json : Option String
  created_by_user_id : Option String
  created_by_display : Option String
deriving Repr, DecidableEq

/-- `WorkOrderAssignmentInput` (main.rs). -/
structure WorkOrderAssignmentInput where
  work_order_id : String
  assignees_json : Option String
deriving Repr, DecidableEq

/-- `WorkOrderStatusInput` (main.rs). -/
structure WorkOrderStatusInput where
  work_order_id : String
  status : Option String
  mileage : Option ℚ
  is_driver : Option Bool
deriving Repr, DecidableEq

/-! ## Work-order state machine -/

/-- `SELECT ... FROM work_orders WHERE id = ? AND is_deleted = 0`. -/
def findWorkOrder (db : DB) (id : String) : Option WorkOrder :=
  db.work_orders.find? (fun wo => wo.id = id && !wo.is_deleted)

/-- The transactional body of `update_work_order_status`
(main.rs, lines 2242-2303): status read, validations, row update,
conditional ledger call.  An error rolls the transaction back. -/
def updateWorkOrderStatusTx (db : DB) (input : WorkOrderStatusInput)
    (role_val : String) (driver_capable : Bool) : Except Err DB :=
  match findWorkOrder db input.work_order_id with
  | none => .error .workOrderNotFound
  | some existing =>
    let current_status := existing.status
    let next_status := input.status.getD current_status
    let delivery_size := existing.delivery_size_cords.getD 0
    if next_status = "completed" ∧ input.mileage = none then
      .error .mileageRequired
    else if role_val = "volunteer" ∧ driver_capable = false then
      .error .volunteerForbidden
    else if driver_capable = true ∧ input.status.isSome = true ∧
        (["in_progress", "delivered", "issue"].contains next_status) = false then
      .error .driverStatusRestricted
    else
      let updated : DB :=
        { db with work_orders := db.work_orders.map (fun wo =>
            if wo.id = input.work_order_id ∧ wo.is_deleted = false then
              { wo with status := next_status,
                        mileage := coalesce input.mileage wo.mileage }
            else wo) }
      if current_status = next_status then .ok updated
      else
        match adjustInventoryForTransition current_status next_status delivery_size
            updated.inventory_items with
        | .error e => .error e
        | .ok items => .ok { updated with inventory_items := items }

/-- `update_work_order_status` (main.rs, lines 2227-2306).  The audit event
row is written on the pool before the transaction and survives a rollback. -/
def update_work_order_status (db : DB) (input : WorkOrderStatusInput)
    (role : Option String) : DB × Option Err :=
  let role_val := asciiLower (role.getD "admin")
  let driver_capable := input.is_driver.getD false
  let db1 := audit_db db "update_work_order_status" role_val "unknown"
  match updateWorkOrderStatusTx db1 input role_val driver_capable with
  | .ok db2 => (db2, none)
  | .error e => (db1, some e)

/-- The work-order row inserted by `create_work_order` (columns this
embedding tracks). -/
def insertedWorkOrder (input : WorkOrderInput) (newId status assignees_store : String) :
    WorkOrder :=
  { id := newId
    client_id := some input.client_id
    client_name := input.client_name
    status := status
    scheduled_date := input.scheduled_date
    gate_combo := input.gate_combo
    notes := input.notes
    telephone := input.telephone
    physical_address_line1 := some input.physical_address_line1
    physical_address_city := some input.physical_address_city
    physical_address_state := some input.physical_address_state
    physical_address_postal_code := some input.physical_address_postal_code
    mileage := input.mileage
    wood_size_label := input.wood_size_label
    wood_size_other := input.wood_size_other
    delivery_size_label := input.delivery_size_label
    delivery_size_cords := input.delivery_size_cords
    assignees_json := some assignees_store
    created_by_display := input.created_by_display
    is_deleted := false }

/-- `create_work_order` (main.rs, lines 1011-1136).  The generated UUIDs for
the work order and the auto-created delivery event are parameters. -/
def create_work_order (db : DB) (input : WorkOrderInput) (role : Option String)
    (newId deliveryId : String) : DB × Option Err :=
  let status := input.status.getD "draft"
  let role_val := asciiLower (role.getD "admin")
  if role_val ≠ "admin" ∧ role_val ≠ "staff" then
    (db, some .onlyStaffOrAdminCreate)
  else
    let assignees_store := input.assignees_json.getD "[]"
    let db1 := audit_db db "create_work_order" role_val "unknown"
    let body : Except Err DB :=
      let db2 : DB :=
        { db1 with work_orders :=
            db1.work_orders ++ [insertedWorkOrder input newId status assignees_store] }
      match adjustInventoryForTransition "draft" status
          (input.delivery_size_cords.getD 0) db2.inventory_items with
      | .error e => .error e
      | .ok items =>
        let db3 : DB := { db2 with inventory_items := items }
        match input.scheduled_date with
        | some start_date =>
          .ok { db3 with delivery_events := db3.delivery_events ++
            [{ id := deliveryId
               title := "Delivery for " ++ input.client_name
               description := none
               event_type := "delivery"
               work_order_id := some newId
               start_date := start_date
               end_date := none
               color_code := some "#e67f1e"
               assigned_user_ids_json := some assignees_store
               is_deleted := false }] }
        | none => .ok db3
    match body with
    | .ok db4 => (db4, none)
    | .error e => (db1, some e)

/-! ## Role-projection listings -/

/-- The volunteer PII scrub of `list_work_orders`. -/
def scrubVolunteerRow (wo : WorkOrderRow) : WorkOrderRow :=
  { wo with telephone := none, gate_combo := none, notes := none,
            physical_address_line1 := none, physical_address_city := none,
            physical_address_state := none, physical_address_postal_code := none }

/-- `list_work_orders` (main.rs, lines 1139-1224): select non-deleted rows,
then apply assignment filtering and role-based redaction. -/
def list_work_orders (db : DB) (role username : Option String)
    (hipaa_certified is_driver : Option Bool) : List WorkOrderRow × DB :=
  let rows := (db.work_orders.filter (fun wo => !wo.is_deleted)).map toWorkOrderRow
  let role_val := asciiLower (role.getD "admin")
  let username_val := username.getD ""
  let username_lower := asciiLower username_val
  let is_hipaa := hipaa_certified.getD false
  let driver_capable := is_driver.getD false
  let db1 := audit_db db "list_work_orders" role_val username_val
  let rows :=
    if role_val = "volunteer" ∨ driver_capable = true then
      (rows.filter (fun wo =>
        (parseAssignees wo.assignees_json).any (fun a => asciiLower a = username_lower))).map
        (fun wo => if role_val = "volunteer" then scrubVolunteerRow wo else wo)
    else if role_val = "staff" ∨ role_val = "lead" then
      if role_val = "lead" ∧ is_hipaa = true then rows
      else rows.map (fun wo => { wo with telephone := none, gate_combo := none, notes := none })
    else rows
  (rows, db1)

/-- The driver redaction of `list_clients`. -/
def scrubDriverClient (c : ClientRow) : ClientRow :=
  { c with gate_combo := none, notes := none }

/-- The non-HIPAA redaction of `list_clients`. -/
def scrubMaskedClient (c : ClientRow) : ClientRow :=
  { c with email := none, telephone := none, gate_combo := none,
           physical_address_line1 := "Hidden",
           physical_address_city := "Hidden",
           physical_address_state := "Hidden",
           physical_address_postal_code := "Hidden" }

/-- The client ids a driver may see: clients of non-deleted work orders with
a non-null, non-empty `client_id` whose assignee list contains the username
case-insensitively (main.rs, lines 705-734). -/
def driverAllowedClientIds (work_orders : List WorkOrder) (username_lower : String) :
    List String :=
  work_orders.filterMap (fun wo =>
    if wo.is_deleted then none
    else
      match wo.client_id with
      | none => none
      | some cid =>
        if cid ≠ "" ∧
            ((parseAssignees wo.assignees_json).any (fun a => asciiLower a = username_lower)) = true
        then some cid else none)

/-- `list_clients` (main.rs, lines 655-759). -/
def list_clients (db : DB) (role username : Option String)
    (hipaa_certified is_driver : Option Bool) : List ClientRow × DB :=
  let rows := (db.clients.filter (fun c => !c.is_deleted)).map Client.toClientRow
  let role_val := asciiLower (role.getD "admin")
  let username_val := username.getD ""
  let username_lower := asciiLower username_val
  let is_hipaa := hipaa_certified.getD false
  let driver_capable := is_driver.getD false
  let db1 := audit_db db "list_clients" role_val "unknown"
  if driver_capable = true then
    let allowed := driverAllowedClientIds db.work_orders username_lower
    ((rows.filter (fun c => allowed.contains c.id)).map scrubDriverClient, db1)
  else if ¬(role_val = "admin" ∨ (role_val = "lead" ∧ is_hipaa = true)) then
    (rows.map scrubMaskedClient, db1)
  else
    (rows, db1)

/-- `update_work_order_assignees` (main.rs, lines 2176-2224): role gate,
then in one transaction write the new list on the work order and mirror
`COALESCE(?, '[]')` onto every linked delivery event. -/
def update_work_order_assignees (db : DB) (input : WorkOrderAssignmentInput)
    (role : Option String) : DB × Option Err :=
  let role_val := asciiLower (role.getD "admin")
  if role_val ≠ "admin" ∧ role_val ≠ "lead" then
    (db, some .onlyAdminOrLeadAssign)
  else
    let db1 := audit_db db "update_work_order_assignees" role_val "unknown"
    let wos := db1.work_orders.map (fun wo =>
      if wo.id = input.work_order_id then { wo with assignees_json := input.assignees_json }
      else wo)
    let des := db1.delivery_events.map (fun de =>
      if de.work_order_id = some input.work_order_id then
        { de with assigned_user_ids_json := some (input.assignees_json.getD "[]") }
      else de)
    ({ db1 with work_orders := wos, delivery_events := des }, none)

/-! ## Basic lemmas about the embedding -/

theorem audit_db_clients (db : DB) (e r a : String) :
    (audit_db db e r a).clients = db.clients := rfl

theorem audit_db_work_orders (db : DB) (e r a : String) :
    (audit_db db e r a).work_orders = db.work_orders := rfl

theorem audit_db_inventory_items (db : DB) (e r a : String) :
    (audit_db db e r a).inventory_items = db.inventory_items := rfl

theorem audit_db_delivery_events (db : DB) (e r a : String) :
    (audit_db db e r a).delivery_events = db.delivery_events := rfl

theorem parseAssignees_coalesce (x : Option String) :
    parseAssignees (some (x.getD "[]")) = parseAssignees x := by
  cases x <;> rfl

theorem map_filter_comm {α β : Type} (f : α → β) (p : β → Bool) (l : List α) :
    (l.map f).filter p = (l.filter (fun a => p (f a))).map f := by
  induction l with
  | nil => rfl
  | cons a t ih =>
    by_cases h : p (f a) = true
    · simp [List.filter_cons, h, ih]
    · simp only [Bool.not_eq_true] at h
      simp [List.filter_cons, h, ih]

/-! ## Claim theorems -/

/-- Scenario data for claim C1: a single tracked stock item with
`on_hand = 10, reserved = 0`. -/
def c1_db : DB :=
  { clients := [], work_orders := [],
    inventory_items := [{ id := "inv1", name := "Firewood", unit := "cord",
                          quantity_on_hand := 10, reserved_quantity := 0,
                          is_deleted := false }],
    delivery_events := [], audit_logs := [] }

/-- Scenario input for claim C1: a work order for 4 cords created directly
in status `scheduled`. -/
def c1_input : WorkOrderInput :=
  { client_id := "c1", client_title := none, client_name := "Jane Doe",
    physical_address_line1 := "1 Main St", physical_address_line2 := none,
    physical_address_city := "Town", physical_address_state := "ST",
    physical_address_postal_code := "00000",
    mailing_address_line1 := none, mailing_address_line2 := none,
    mailing_address_city := none, mailing_address_state := none,
    mailing_address_postal_code := none,
    telephone := none, email := none, directions := none, gate_combo := none,
    mileage := none, other_heat_source_gas := false,
    other_heat_source_electric := false, other_heat_source_other := none,
    notes := none, scheduled_date := none, status := some "scheduled",
    wood_size_label := none, wood_size_other := none,
    delivery_size_label := none, delivery_size_cords := some 4,
    assignees_json := none, created_by_user_id := none,
    created_by_display := none }

/-- The database state after the creation step of claim C1. -/
def c1_db_after_create : DB := (create_work_order c1_db c1_input none "w1" "d1").1

/-- The completion request of claim C1: transition `w1` to `completed`
with mileage 12. -/
def c1_complete_input : WorkOrderStatusInput :=
  { work_order_id := "w1", status := some "completed", mileage := some 12,
    is_driver := none }

/-- C1: from `on_hand = 10, reserved = 0`, creating a work order with
`delivery_size_cords = 4` in status `scheduled` succeeds and leaves
`reserved = 4, on_hand = 10`; transitioning that order to `completed` with
mileage 12 succeeds and leaves `reserved = 0, on_hand = 6`, the order ending
in status `completed`. -/
theorem C1_scenarioA_reserve_then_consume :
    (create_work_order c1_db c1_input none "w1" "d1").2 = none ∧
    c1_db_after_create.inventory_items =
      [{ id := "inv1", name := "Firewood", unit := "cord",
         quantity_on_hand := 10, reserved_quantity := 4, is_deleted := false }] ∧
    (update_work_order_status c1_db_after_create c1_complete_input none).2 = none ∧
    (update_work_order_status c1_db_after_create c1_complete_input none).1.inventory_items =
      [{ id := "inv1", name := "Firewood", unit := "cord",
         quantity_on_hand := 6, reserved_quantity := 0, is_deleted := false }] ∧
    ((update_work_order_status c1_db_after_create c1_complete_input none).1.work_orders.map
      (fun wo => (wo.status, wo.mileage))) = [("completed", some 12)] := by
  decide

/-- C9: if every inventory row is deleted or fails the wood heuristic, an
adjustment with positive quantity fails with `NoTrackedStockError` (and by
the transactional model modifies no row); an adjustment with `quantity ≤ 0`
succeeds as a no-op, returning the rows untouched without resolving stock. -/
theorem C9_no_stock_and_nonpositive_noop (p n : String) (q : ℚ)
    (items : List InventoryItem)
    (hnone : ∀ it ∈ items, it.is_deleted = true ∨ isWoodStock it = false) :
    (0 < q → adjustInventoryForTransition p n q items = .error .noTrackedStock) ∧
    (q ≤ 0 → adjustInventoryForTransition p n q items = .ok items) := by
  have hres : resolveWoodStock items = none := by
    simp only [resolveWoodStock, List.find?_eq_none]
    intro it hit
    rcases hnone it hit with h | h <;> simp [h]
  constructor
  · intro hq
    unfold adjustInventoryForTransition
    rw [if_neg (not_le.mpr hq), hres]
  · intro hq
    unfold adjustInventoryForTransition
    rw [if_pos hq]

/-- Witness for C9 at `q = 5` over an empty inventory table. -/
theorem C9_witness :
    (∀ it ∈ ([] : List InventoryItem), it.is_deleted = true ∨ isWoodStock it = false) ∧
    0 < (5 : ℚ) ∧
    adjustInventoryForTransition "draft" "scheduled" 5 [] = .error .noTrackedStock ∧
    adjustInventoryForTransition "draft" "scheduled" (-2) [] = .ok [] :=
  ⟨by simp, by norm_num,
    (C9_no_stock_and_nonpositive_noop "draft" "scheduled" 5 [] (by simp)).1 (by norm_num),
    (C9_no_stock_and_nonpositive_noop "draft" "scheduled" (-2) [] (by simp)).2 (by norm_num)⟩

/-- C7: the field-change recorder appends no row when old and new values
are equal (including both absent), and appends exactly one row carrying the
field's old and new values when they differ. -/
theorem C7_field_diff_rows (log : List AuditRow) (role actor entity_id field : String)
    (o n : Option String) :
    (o = n → update_client_log_field log role actor entity_id field o n = log) ∧
    (o ≠ n → update_client_log_field log role actor entity_id field o n =
      log ++ [{ event := "update_client", role := role, actor := actor,
                entity := some "clients", entity_id := some entity_id,
                field := some field, old_value := o, new_value := n }]) := by
  constructor
  · intro h
    simp [update_client_log_field, h]
  · intro h
    simp [update_client_log_field, audit_change, h]

/-- Witness for C7: updating `notes` from "old" to "old" appends nothing;
from "old" to "new" appends exactly one row with those values. -/
theorem C7_witness :
    ((some "old" : Option String) ≠ some "new") ∧
    update_client_log_field [] "admin" "alice" "client-1" "notes"
      (some "old") (some "new") =
      [{ event := "update_client", role := "admin", actor := "alice",
         entity := some "clients", entity_id := some "client-1",
         field := some "notes", old_value := some "old",
         new_value := some "new" }] ∧
    update_client_log_field [] "admin" "alice" "client-1" "notes"
      (some "old") (some "old") = [] :=
  ⟨by decide,
    (C7_field_diff_rows [] "admin" "alice" "client-1" "notes"
      (some "old") (some "new")).2 (by decide),
    (C7_field_diff_rows [] "admin" "alice" "client-1" "notes"
      (some "old") (some "old")).1 rfl⟩

/-- C8: an assignee update fails with the admin/lead gate error (database
untouched) unless the actor's role is admin or lead; on success the new
assignee list is written on the work order and mirrored (as
`COALESCE(?, '[]')`) onto every delivery event linked to that work order in
the same transaction, so the effective assignee lists of the order and of
each linked event are equal afterwards. -/
theorem C8_assignee_update_gate_and_mirror (db : DB) (input : WorkOrderAssignmentInput)
    (role : Option String) :
    (asciiLower (role.getD "admin") ≠ "admin" ∧ asciiLower (role.getD "admin") ≠ "lead" →
      update_work_order_assignees db input role = (db, some .onlyAdminOrLeadAssign)) ∧
    (asciiLower (role.getD "admin") = "admin" ∨ asciiLower (role.getD "admin") = "lead" →
      (update_work_order_assignees db input role).2 = none ∧
      ∀ wo ∈ (update_work_order_assignees db input role).1.work_orders,
        wo.id = input.work_order_id →
          wo.assignees_json = input.assignees_json ∧
          ∀ de ∈ (update_work_order_assignees db input role).1.delivery_events,
            de.work_order_id = some input.work_order_id →
              de.assigned_user_ids_json = some (input.assignees_json.getD "[]") ∧
              parseAssignees wo.assignees_json = parseAssignees de.assigned_user_ids_json) := by
  constructor
  · intro h
    simp only [update_work_order_assignees]
    rw [if_pos h]
  · intro h
    have hcond : ¬(asciiLower (role.getD "admin") ≠ "admin" ∧
        asciiLower (role.getD "admin") ≠ "lead") := by
      rcases h with h | h <;> simp [h]
    simp only [update_work_order_assignees]
    rw [if_neg hcond]
    refine ⟨rfl, ?_⟩
    intro wo hwo hid
    simp only [audit_db_work_orders, List.mem_map] at hwo
    obtain ⟨wo0, _, rfl⟩ := hwo
    by_cases h0 : wo0.id = input.work_order_id
    · rw [if_pos h0]
      refine ⟨rfl, ?_⟩
      intro de hde hdeid
      simp only [audit_db_delivery_events, List.mem_map] at hde
      obtain ⟨de0, _, rfl⟩ := hde
      by_cases h1 : de0.work_order_id = some input.work_order_id
      · rw [if_pos h1]
        exact ⟨rfl, (parseAssignees_coalesce input.assignees_json).symm⟩
      · rw [if_neg h1] at hdeid ⊢
        exact absurd hdeid h1
    · rw [if_neg h0] at hid ⊢
      exact absurd hid h0

/-- Scenario data for the C8 witness: one work order `w1` and one linked
delivery event. -/
def c8w_wo : WorkOrder :=
  { id := "w1", client_id := some "c1", client_name := "Jane",
    status := "scheduled", scheduled_date := some "2024-02-01",
    gate_combo := none, notes := none, telephone := none,
    physical_address_line1 := none, physical_address_city := none,
    physical_address_state := none, physical_address_postal_code := none,
    mileage := none, wood_size_label := none, wood_size_other := none,
    delivery_size_label := none, delivery_size_cords := some 2,
    assignees_json := some "[\"Old\"]", created_by_display := none,
    is_deleted := false }

/-- Scenario database for the C8 witness. -/
def c8w_db : DB :=
  { clients := [], work_orders := [c8w_wo], inventory_items := [],
    delivery_events := [{ id := "d1", title := "Delivery for Jane",
                          description := none, event_type := "delivery",
                          work_order_id := some "w1",
                          start_date := "2024-02-01", end_date := none,
                          color_code := none,
                          assigned_user_ids_json := some "[\"Old\"]",
                          is_deleted := false }],
    audit_logs := [] }

/-- The C8 witness request: a lead replaces the assignee list of `w1`. -/
def c8w_input : WorkOrderAssignmentInput :=
  { work_order_id := "w1", assignees_json := some "[\"Bob\"]" }

/-- Witness for C8: a lead updating `w1` succeeds and the lists mirror. -/
theorem C8_witness :
    (asciiLower ((some "lead" : Option String).getD "admin") = "admin" ∨
      asciiLower ((some "lead" : Option String).getD "admin") = "lead") ∧
    ((update_work_order_assignees c8w_db c8w_input (some "lead")).2 = none ∧
      ∀ wo ∈ (update_work_order_assignees c8w_db c8w_input (some "lead")).1.work_orders,
        wo.id = c8w_input.work_order_id →
          wo.assignees_json = c8w_input.assignees_json ∧
          ∀ de ∈ (update_work_order_assignees c8w_db c8w_input (some "lead")).1.delivery_events,
            de.work_order_id = some c8w_input.work_order_id →
              de.assigned_user_ids_json = some (c8w_input.assignees_json.getD "[]") ∧
              parseAssignees wo.assignees_json = parseAssignees de.assigned_user_ids_json) :=
  ⟨by decide,
    (C8_assignee_update_gate_and_mirror c8w_db c8w_input (some "lead")).2 (by decide)⟩

/-- C10: omitting the role parameter defaults the actor's role to admin:
`create_work_order` behaves exactly as with an explicit admin role, passes
the role gate and (when the inventory adjustment succeeds) inserts the
order; `list_work_orders` and `list_clients` with the driver flag absent or
false behave exactly as for an explicit admin and return every non-deleted
row unprojected. -/
theorem C10_omitted_role_defaults_admin :
    (∀ (db : DB) (input : WorkOrderInput) (newId deliveryId : String),
      create_work_order db input none newId deliveryId =
        create_work_order db input (some "admin") newId deliveryId ∧
      ∀ items, adjustInventoryForTransition "draft" (input.status.getD "draft")
          (input.delivery_size_cords.getD 0) db.inventory_items = .ok items →
        (create_work_order db input none newId deliveryId).2 = none ∧
        insertedWorkOrder input newId (input.status.getD "draft")
            (input.assignees_json.getD "[]") ∈
          (create_work_order db input none newId deliveryId).1.work_orders) ∧
    (∀ (db : DB) (username : Option String) (hipaa drv : Option Bool),
      drv = none ∨ drv = some false →
      list_work_orders db none username hipaa drv =
        list_work_orders db (some "admin") username hipaa drv ∧
      (list_work_orders db none username hipaa drv).1 =
        (db.work_orders.filter (fun wo => !wo.is_deleted)).map toWorkOrderRow) ∧
    (∀ (db : DB) (username : Option String) (hipaa drv : Option Bool),
      drv = none ∨ drv = some false →
      list_clients db none username hipaa drv =
        list_clients db (some "admin") username hipaa drv ∧
      (list_clients db none username hipaa drv).1 =
        (db.clients.filter (fun c => !c.is_deleted)).map Client.toClientRow) := by
  have hadmin : asciiLower "admin" = "admin" := by decide
  refine ⟨?_, ?_, ?_⟩
  · intro db input newId deliveryId
    constructor
    · rfl
    · intro items hadj
      simp only [create_work_order]
      rw [if_neg (by decide : ¬(asciiLower ((none : Option String).getD "admin") ≠ "admin" ∧
        asciiLower ((none : Option String).getD "admin") ≠ "staff"))]
      simp only [audit_db_inventory_items]
      rw [hadj]
      cases hs : input.scheduled_date with
      | none =>
        refine ⟨rfl, ?_⟩
        simp [audit_db, insertedWorkOrder]
      | some start_date =>
        refine ⟨rfl, ?_⟩
        simp [audit_db, insertedWorkOrder]
  · intro db username hipaa drv hdrv
    have hdrv' : drv.getD false = false := by rcases hdrv with rfl | rfl <;> rfl
    constructor
    · rcases hdrv with rfl | rfl <;> rfl
    · simp only [list_work_orders]
      rw [if_neg (by simp [hadmin, hdrv'] : ¬(asciiLower ((none : Option String).getD "admin") =
            "volunteer" ∨ drv.getD false = true)),
          if_neg (by simp [hadmin] : ¬(asciiLower ((none : Option String).getD "admin") =
            "staff" ∨ asciiLower ((none : Option String).getD "admin") = "lead"))]
  · intro db username hipaa drv hdrv
    have hdrv' : drv.getD false = false := by rcases hdrv with rfl | rfl <;> rfl
    constructor
    · rcases hdrv with rfl | rfl <;> rfl
    · simp only [list_clients]
      rw [if_neg (by simp [hdrv'] : ¬(drv.getD false = true)),
          if_neg (by simp [hadmin] :
            ¬¬(asciiLower ((none : Option String).getD "admin") = "admin" ∨
              (asciiLower ((none : Option String).getD "admin") = "lead" ∧
                hipaa.getD false = true)))]

/-- Scenario database for the C10 witness: one client, one work order. -/
def c10w_db : DB :=
  { clients := [{ id := "c1", name := "Jane Doe", email := some "j@x.org",
                  telephone := some "555", approval_status := "approved",
                  date_of_onboarding := none, how_did_they_hear_about_us := none,
                  referring_agency := none, denial_reason := none,
                  physical_address_line1 := "1 Main St",
                  physical_address_line2 := none, physical_address_city := "Town",
                  physical_address_state := "ST",
                  physical_address_postal_code := "00000",
                  mailing_address_line1 := none, mailing_address_line2 := none,
                  mailing_address_city := none, mailing_address_state := none,
                  mailing_address_postal_code := none, gate_combo := some "77",
                  notes := some "n", wood_size_label := none,
                  wood_size_other := none, directions := none,
                  created_at := "2024-01-01", is_deleted := false }],
    work_orders := [{ id := "w1", client_id := some "c1", client_name := "Jane Doe",
                      status := "draft", scheduled_date := none,
                      gate_combo := some "77", notes := some "n",
                      telephone := some "555", physical_address_line1 := some "1 Main St",
                      physical_address_city := some "Town",
                      physical_address_state := some "ST",
                      physical_address_postal_code := some "00000",
                      mileage := none, wood_size_label := none,
                      wood_size_other := none, delivery_size_label := none,
                      delivery_size_cords := some 3, assignees_json := none,
                      created_by_display := none, is_deleted := false }],
    inventory_items := [], delivery_events := [], audit_logs := [] }

/-- The C10 witness creation input: no role, no status, no cords. -/
def c10w_input : WorkOrderInput :=
  { client_id := "c1", client_title := none, client_name := "Jane Doe",
    physical_address_line1 := "1 Main St", physical_address_line2 := none,
    physical_address_city := "Town", physical_address_state := "ST",
    physical_address_postal_code := "00000",
    mailing_address_line1 := none, mailing_address_line2 := none,
    mailing_address_city := none, mailing_address_state := none,
    mailing_address_postal_code := none,
    telephone := none, email := none, directions := none, gate_combo := none,
    mileage := none, other_heat_source_gas := false,
    other_heat_source_electric := false, other_heat_source_other := none,
    notes := none, scheduled_date := none, status := none,
    wood_size_label := none, wood_size_other := none,
    delivery_size_label := none, delivery_size_cords := none,
    assignees_json := none, created_by_user_id := none,
    created_by_display := none }

/-- Witness for C10 at a concrete database with `role` omitted. -/
theorem C10_witness :
    adjustInventoryForTransition "draft" (c10w_input.status.getD "draft")
        (c10w_input.delivery_size_cords.getD 0) c10w_db.inventory_items = .ok [] ∧
    ((create_work_order c10w_db c10w_input none "w9" "d9").2 = none ∧
      insertedWorkOrder c10w_input "w9" (c10w_input.status.getD "draft")
          (c10w_input.assignees_json.getD "[]") ∈
        (create_work_order c10w_db c10w_input none "w9" "d9").1.work_orders) ∧
    ((none : Option Bool) = none ∨ (none : Option Bool) = some false) ∧
    (list_work_orders c10w_db none (some "zed") none none).1 =
      (c10w_db.work_orders.filter (fun wo => !wo.is_deleted)).map toWorkOrderRow ∧
    (list_clients c10w_db none (some "zed") none none).1 =
      (c10w_db.clients.filter (fun c => !c.is_deleted)).map Client.toClientRow :=
  ⟨by decide,
    (C10_omitted_role_defaults_admin.1 c10w_db c10w_input "w9" "d9").2 [] (by decide),
    Or.inl rfl,
    (C10_omitted_role_defaults_admin.2.1 c10w_db (some "zed") none none (Or.inl rfl)).2,
    (C10_omitted_role_defaults_admin.2.2 c10w_db (some "zed") none none (Or.inl rfl)).2⟩

/-- Counterexample data for C4: work order `w1` in `in_progress` with no
stored mileage. -/
def c4x_wo : WorkOrder :=
  { id := "w1", client_id := some "c1", client_name := "Jane",
    status := "in_progress", scheduled_date := none, gate_combo := none,
    notes := none, telephone := none, physical_address_line1 := none,
    physical_address_city := none, physical_address_state := none,
    physical_address_postal_code := none, mileage := none,
    wood_size_label := none, wood_size_other := none,
    delivery_size_label := none, delivery_size_cords := none,
    assignees_json := none, created_by_display := none, is_deleted := false }

/-- Counterexample database for C4. -/
def c4x_db : DB :=
  { clients := [], work_orders := [c4x_wo], inventory_items := [],
    delivery_events := [], audit_logs := [] }

/-- The C4 counterexample request: a driver-capable actor marks `w1`
`delivered` (the driver-terminal completion status) with no mileage. -/
def c4x_input : WorkOrderStatusInput :=
  { work_order_id := "w1", status := some "delivered", mileage := none,
    is_driver := some true }

/-- C4 counterexample: a transition to the driver-terminal status
`delivered` with mileage absent both in the request and on the stored order
succeeds and changes the status — the code requires mileage only for the
literal status `completed`, so the claim as stated is false. -/
theorem C4_counterexample_delivered_without_mileage :
    c4x_wo.mileage = none ∧ c4x_input.mileage = none ∧
    (update_work_order_status c4x_db c4x_input (some "staff")).2 = none ∧
    ((update_work_order_status c4x_db c4x_input (some "staff")).1.work_orders.map
      (fun wo => wo.status)) = ["delivered"] := by
  decide

/-- C4 (amended): for every transition request whose target status is the
literal `completed` and whose mileage is absent in the request (in
particular when it is also absent on the stored order), the transition
fails with the mileage validation error and neither the work orders nor
the inventory change; driver-terminal statuses such as `delivered` carry no
mileage requirement. -/
theorem C4_amended_completed_requires_mileage (db : DB)
    (input : WorkOrderStatusInput) (role : Option String) (wo : WorkOrder)
    (hfind : findWorkOrder db input.work_order_id = some wo)
    (hstatus : input.status.getD wo.status = "completed")
    (hmil : input.mileage = none)
    (_hmil_stored : wo.mileage = none) :
    (update_work_order_status db input role).2 = some .mileageRequired ∧
    (update_work_order_status db input role).1.work_orders = db.work_orders ∧
    (update_work_order_status db input role).1.inventory_items = db.inventory_items := by
  have hfind1 : findWorkOrder
      (audit_db db "update_work_order_status" (asciiLower (role.getD "admin")) "unknown")
      input.work_order_id = some wo := hfind
  simp only [update_work_order_status, updateWorkOrderStatusTx, hfind1]
  rw [if_pos ⟨hstatus, hmil⟩]
  exact ⟨rfl, rfl, rfl⟩

/-- Witness data for C4: order `w4` in `scheduled` with no stored mileage. -/
def c4w_db : DB :=
  { clients := [],
    work_orders := [{ c4x_wo with id := "w4", status := "scheduled" }],
    inventory_items := [], delivery_events := [], audit_logs := [] }

/-- Witness for C4 (amended): completing `w4` with no mileage anywhere
fails and changes nothing. -/
theorem C4_witness :
    findWorkOrder c4w_db "w4" = some { c4x_wo with id := "w4", status := "scheduled" } ∧
    ((some "completed" : Option String).getD "scheduled" = "completed") ∧
    ((update_work_order_status c4w_db
        { work_order_id := "w4", status := some "completed", mileage := none,
          is_driver := none } none).2 = some .mileageRequired ∧
      (update_work_order_status c4w_db
        { work_order_id := "w4", status := some "completed", mileage := none,
          is_driver := none } none).1.work_orders = c4w_db.work_orders ∧
      (update_work_order_status c4w_db
        { work_order_id := "w4", status := some "completed", mileage := none,
          is_driver := none } none).1.inventory_items = c4w_db.inventory_items) :=
  ⟨by decide, by decide,
    C4_amended_completed_requires_mileage c4w_db
      { work_order_id := "w4", status := some "completed", mileage := none,
        is_driver := none } none
      { c4x_wo with id := "w4", status := "scheduled" }
      (by decide) (by decide) rfl rfl⟩

/-- Counterexample data for C5: a work order assigned to `Alice` carrying a
gate code and notes. -/
def c5x_wo : WorkOrder :=
  { id := "w1", client_id := some "c1", client_name := "Jane",
    status := "scheduled", scheduled_date := some "2024-02-01",
    gate_combo := some "1234", notes := some "dog in yard",
    telephone := some "555", physical_address_line1 := some "1 Main St",
    physical_address_city := some "Town", physical_address_state := some "ST",
    physical_address_postal_code := some "00000", mileage := none,
    wood_size_label := none, wood_size_other := none,
    delivery_size_label := none, delivery_size_cords := some 2,
    assignees_json := some "[\"Alice\"]", created_by_display := none,
    is_deleted := false }

/-- Counterexample database for C5. -/
def c5x_db : DB :=
  { clients := [], work_orders := [c5x_wo], inventory_items := [],
    delivery_events := [], audit_logs := [] }

/-- C5 counterexample: a driver-capable staff actor `alice` lists work
orders; the assigned row is returned (case-insensitive match on `Alice`)
but its gate code and notes are NOT absent — the code nulls them only for
the volunteer role, so the claim as stated is false. -/
theorem C5_counterexample_driver_sees_gate_code :
    ((list_work_orders c5x_db (some "staff") (some "alice") none (some true)).1.map
      (fun r => (r.id, r.gate_combo, r.notes))) =
      [("w1", some "1234", some "dog in yard")] := by
  decide

/-- C5 (amended): for a driver-capable actor whose role is not `volunteer`,
the result is exactly the non-deleted rows whose assignee list contains the
actor's username case-insensitively, projected unmodified — in particular
gate code and notes are retained, not nulled (they are stripped only for
the `volunteer` role). -/
theorem C5_amended_driver_assignment_filter (db : DB) (role username : Option String)
    (hipaa : Option Bool)
    (hrole : asciiLower (role.getD "admin") ≠ "volunteer") :
    (list_work_orders db role username hipaa (some true)).1 =
      (db.work_orders.filter (fun wo => !wo.is_deleted &&
        (parseAssignees (some (wo.assignees_json.getD "[]"))).any
          (fun a => asciiLower a = asciiLower (username.getD "")))).map
        toWorkOrderRow := by
  simp only [list_work_orders]
  rw [if_pos (show asciiLower (role.getD "admin") = "volunteer" ∨
      (some true : Option Bool).getD false = true from Or.inr rfl)]
  have hid : (fun wo => if asciiLower (role.getD "admin") = "volunteer" then
      scrubVolunteerRow wo else wo) = fun (wo : WorkOrderRow) => wo :=
    funext fun wo => if_neg hrole
  rw [hid, List.map_id', map_filter_comm, List.filter_filter]
  congr 1
  refine List.filter_congr ?_
  intro a _
  exact Bool.and_comm _ _

/-- Witness for C5 (amended) at the counterexample database. -/
theorem C5_witness :
    asciiLower ((some "staff" : Option String).getD "admin") ≠ "volunteer" ∧
    (list_work_orders c5x_db (some "staff") (some "alice") none (some true)).1 =
      (c5x_db.work_orders.filter (fun wo => !wo.is_deleted &&
        (parseAssignees (some (wo.assignees_json.getD "[]"))).any
          (fun a => asciiLower a = asciiLower ((some "alice" : Option String).getD "")))).map
        toWorkOrderRow :=
  ⟨by decide,
    C5_amended_driver_assignment_filter c5x_db (some "staff") (some "alice") none (by decide)⟩

/-- Counterexample data for C6: a client with a second physical address
line. -/
def c6x_client : Client :=
  { id := "c1", name := "Jane Doe", email := some "jane@example.org",
    telephone := some "555-0100", approval_status := "approved",
    date_of_onboarding := none, how_did_they_hear_about_us := none,
    referring_agency := none, denial_reason := none,
    physical_address_line1 := "1 Main St",
    physical_address_line2 := some "Apt 2",
    physical_address_city := "Town", physical_address_state := "ST",
    physical_address_postal_code := "00000",
    mailing_address_line1 := none, mailing_address_line2 := none,
    mailing_address_city := none, mailing_address_state := none,
    mailing_address_postal_code := none, gate_combo := some "77",
    notes := some "call first", wood_size_label := none,
    wood_size_other := none, directions := none,
    created_at := "2024-01-01", is_deleted := false }

/-- Counterexample database for C6. -/
def c6x_db : DB :=
  { clients := [c6x_client], work_orders := [], inventory_items := [],
    delivery_events := [], audit_logs := [] }

/-- C6 counterexample: a non-HIPAA lead lists clients; line1/city/state/
postal are replaced by `Hidden` and telephone/email are nulled, but the
physical address field `physical_address_line2` is returned unredacted
(`Apt 2`), so "every returned row's physical address fields equal the
sentinel" is false as stated. -/
theorem C6_counterexample_line2_not_hidden :
    ((list_clients c6x_db (some "lead") none (some false) (some false)).1.map
      (fun c => (c.physical_address_line1, c.physical_address_line2,
                 c.telephone, c.email))) =
      [("Hidden", some "Apt 2", none, none)] := by
  decide

/-- C6 (amended): a non-driver lead without HIPAA certification sees each
non-deleted client with `physical_address_line1/city/state/postal_code`
replaced by the sentinel `Hidden`, telephone, email and gate code absent,
and `physical_address_line2` passed through unchanged; the same listing as
admin returns every row unredacted. -/
theorem C6_amended_lead_masking_admin_full (db : DB) (username : Option String)
    (hipaa : Option Bool) :
    (∀ r ∈ (list_clients db (some "lead") username (some false) (some false)).1,
      r.physical_address_line1 = "Hidden" ∧ r.physical_address_city = "Hidden" ∧
      r.physical_address_state = "Hidden" ∧
      r.physical_address_postal_code = "Hidden" ∧
      r.telephone = none ∧ r.email = none ∧ r.gate_combo = none ∧
      ∃ c ∈ db.clients, c.is_deleted = false ∧
        r.physical_address_line2 = c.physical_address_line2) ∧
    (list_clients db (some "admin") username hipaa (some false)).1 =
      (db.clients.filter (fun c => !c.is_deleted)).map Client.toClientRow := by
  constructor
  · intro r hr
    simp only [list_clients] at hr
    rw [if_neg (by decide : ¬((some false : Option Bool).getD false = true)),
        if_pos (by decide : ¬(asciiLower ((some "lead" : Option String).getD "admin") = "admin" ∨
          (asciiLower ((some "lead" : Option String).getD "admin") = "lead" ∧
            (some false : Option Bool).getD false = true)))] at hr
    simp only [List.mem_map, List.mem_filter] at hr
    obtain ⟨a, ⟨c0, ⟨hc0, hdel⟩, rfl⟩, rfl⟩ := hr
    refine ⟨rfl, rfl, rfl, rfl, rfl, rfl, rfl, c0, hc0, ?_, rfl⟩
    simpa using hdel
  · simp only [list_clients]
    rw [if_neg (by decide : ¬((some false : Option Bool).getD false = true)),
        if_neg (by simp [show asciiLower "admin" = "admin" from by decide] :
          ¬¬(asciiLower ((some "admin" : Option String).getD "admin") = "admin" ∨
            (asciiLower ((some "admin" : Option String).getD "admin") = "lead" ∧
              hipaa.getD false = true)))]

/-- Witness for C6 (amended) at the counterexample database. -/
theorem C6_witness :
    ((list_clients c6x_db (some "lead") none (some false) (some false)).1.map
        ClientRow.physical_address_line1 = ["Hidden"] →
      scrubMaskedClient c6x_client.toClientRow ∈
        (list_clients c6x_db (some "lead") none (some false) (some false)).1) ∧
    (scrubMaskedClient c6x_client.toClientRow).physical_address_line1 = "Hidden" ∧
    (scrubMaskedClient c6x_client.toClientRow).telephone = none ∧
    (list_clients c6x_db (some "admin") none (some false) (some false)).1 =
      (c6x_db.clients.filter (fun c => !c.is_deleted)).map Client.toClientRow :=
  ⟨fun _ => by decide,
    ((C6_amended_lead_masking_admin_full c6x_db none (some false)).1
      (scrubMaskedClient c6x_client.toClientRow) (by decide)).1,
    ((C6_amended_lead_masking_admin_full c6x_db none (some false)).1
      (scrubMaskedClient c6x_client.toClientRow) (by decide)).2.2.2.2.1,
    (C6_amended_lead_masking_admin_full c6x_db none (some false)).2⟩

/-- Ledger lemma: moving from a non-reserving to a reserving status with a
positive quantity exceeding availability fails with the insufficiency
error. -/
theorem adjust_insufficient (p n : String) (q : ℚ) (items : List InventoryItem)
    (stock : InventoryItem)
    (hstock : resolveWoodStock items = some stock)
    (hp : reserveStates.contains (asciiLower p) = false)
    (hn : reserveStates.contains (asciiLower n) = true)
    (hq : 0 < q)
    (hav : stock.quantity_on_hand - stock.reserved_quantity < q) :
    adjustInventoryForTransition p n q items =
      .error (.insufficientInventory q
        (stock.quantity_on_hand - stock.reserved_quantity)) := by
  unfold adjustInventoryForTransition
  rw [if_neg (not_le.mpr hq)]
  simp only [hstock]
  rw [if_pos ⟨hp, hn⟩, if_pos hav]

/-- C3: (a) transitioning a stored work order from a non-reserving to a
reserving status when its cord quantity is positive and exceeds the
resolved stock's availability fails with `InsufficientInventoryError`,
leaving both the work orders (the status, still `draft` in the scenario)
and the stock record unchanged; (b) creating a work order directly in a
reserving status under the same shortage likewise fails with
`InsufficientInventoryError` and persists nothing. -/
theorem C3_insufficient_inventory_rolls_back :
    (∀ (db : DB) (input : WorkOrderStatusInput) (role : Option String)
        (wo : WorkOrder) (stock : InventoryItem),
      findWorkOrder db input.work_order_id = some wo →
      resolveWoodStock db.inventory_items = some stock →
      reserveStates.contains (asciiLower wo.status) = false →
      reserveStates.contains (asciiLower (input.status.getD wo.status)) = true →
      0 < wo.delivery_size_cords.getD 0 →
      stock.quantity_on_hand - stock.reserved_quantity < wo.delivery_size_cords.getD 0 →
      asciiLower (role.getD "admin") ≠ "volunteer" →
      input.is_driver.getD false = false →
      (update_work_order_status db input role).2 =
        some (.insufficientInventory (wo.delivery_size_cords.getD 0)
          (stock.quantity_on_hand - stock.reserved_quantity)) ∧
      (update_work_order_status db input role).1.work_orders = db.work_orders ∧
      (update_work_order_status db input role).1.inventory_items = db.inventory_items) ∧
    (∀ (db : DB) (input : WorkOrderInput) (newId deliveryId : String)
        (stock : InventoryItem),
      resolveWoodStock db.inventory_items = some stock →
      reserveStates.contains (asciiLower (input.status.getD "draft")) = true →
      0 < input.delivery_size_cords.getD 0 →
      stock.quantity_on_hand - stock.reserved_quantity < input.delivery_size_cords.getD 0 →
      (create_work_order db input none newId deliveryId).2 =
        some (.insufficientInventory (input.delivery_size_cords.getD 0)
          (stock.quantity_on_hand - stock.reserved_quantity)) ∧
      (create_work_order db input none newId deliveryId).1.work_orders = db.work_orders ∧
      (create_work_order db input none newId deliveryId).1.inventory_items =
        db.inventory_items) := by
  constructor
  · intro db input role wo stock hfind hstock hp hn hq hav hrole hdrv
    have hfind1 : findWorkOrder
        (audit_db db "update_work_order_status" (asciiLower (role.getD "admin")) "unknown")
        input.work_order_id = some wo := hfind
    have hnotcomp : ¬(input.status.getD wo.status = "completed" ∧ input.mileage = none) := by
      rintro ⟨h, -⟩
      rw [h] at hn
      exact absurd hn (by decide)
    have hvol : ¬(asciiLower (role.getD "admin") = "volunteer" ∧
        input.is_driver.getD false = false) := by
      rintro ⟨h, -⟩
      exact hrole h
    have hdrvgate : ¬(input.is_driver.getD false = true ∧
        input.status.isSome = true ∧
        (["in_progress", "delivered", "issue"].contains
          (input.status.getD wo.status)) = false) := by
      rintro ⟨h, -, -⟩
      rw [hdrv] at h
      cases h
    have hne : ¬(wo.status = input.status.getD wo.status) := by
      intro h
      rw [← h] at hn
      rw [hn] at hp
      cases hp
    have hadj1 : adjustInventoryForTransition wo.status (input.status.getD wo.status)
        (wo.delivery_size_cords.getD 0) db.inventory_items =
        .error (.insufficientInventory (wo.delivery_size_cords.getD 0)
          (stock.quantity_on_hand - stock.reserved_quantity)) :=
      adjust_insufficient _ _ _ _ _ hstock hp hn hq hav
    simp only [update_work_order_status, updateWorkOrderStatusTx, hfind1,
      audit_db_inventory_items]
    rw [if_neg hnotcomp, if_neg hvol, if_neg hdrvgate, if_neg hne]
    simp only [hadj1]
    simp [audit_db]
  · intro db input newId deliveryId stock hstock hn hq hav
    have hadj1 : adjustInventoryForTransition "draft" (input.status.getD "draft")
        (input.delivery_size_cords.getD 0) db.inventory_items =
        .error (.insufficientInventory (input.delivery_size_cords.getD 0)
          (stock.quantity_on_hand - stock.reserved_quantity)) :=
      adjust_insufficient _ _ _ _ _ hstock (by decide) hn hq hav
    simp only [create_work_order]
    rw [if_neg (by decide : ¬(asciiLower ((none : Option String).getD "admin") ≠ "admin" ∧
        asciiLower ((none : Option String).getD "admin") ≠ "staff"))]
    simp only [audit_db_inventory_items, hadj1]
    simp [audit_db]

/-- Witness stock for C3 (Scenario B): `on_hand = 3, reserved = 0`. -/
def c3w_stock : InventoryItem :=
  { id := "inv1", name := "Firewood", unit := "cord",
    quantity_on_hand := 3, reserved_quantity := 0, is_deleted := false }

/-- Witness order for C3: a draft work order needing 5 cords. -/
def c3w_wo : WorkOrder :=
  { id := "w1", client_id := some "c1", client_name := "Jane",
    status := "draft", scheduled_date := none, gate_combo := none,
    notes := none, telephone := none, physical_address_line1 := none,
    physical_address_city := none, physical_address_state := none,
    physical_address_postal_code := none, mileage := none,
    wood_size_label := none, wood_size_other := none,
    delivery_size_label := none, delivery_size_cords := some 5,
    assignees_json := none, created_by_display := none, is_deleted := false }

/-- Witness database for C3. -/
def c3w_db : DB :=
  { clients := [], work_orders := [c3w_wo], inventory_items := [c3w_stock],
    delivery_events := [], audit_logs := [] }

/-- Witness request for C3: schedule `w1`. -/
def c3w_input : WorkOrderStatusInput :=
  { work_order_id := "w1", status := some "scheduled", mileage := none,
    is_driver := none }

/-- Witness creation input for C3: a 5-cord order born `scheduled`. -/
def c3w_create_input : WorkOrderInput :=
  { client_id := "c2", client_title := none, client_name := "John Roe",
    physical_address_line1 := "2 Oak St", physical_address_line2 := none,
    physical_address_city := "Town", physical_address_state := "ST",
    physical_address_postal_code := "00000",
    mailing_address_line1 := none, mailing_address_line2 := none,
    mailing_address_city := none, mailing_address_state := none,
    mailing_address_postal_code := none,
    telephone := none, email := none, directions := none, gate_combo := none,
    mileage := none, other_heat_source_gas := false,
    other_heat_source_electric := false, other_heat_source_other := none,
    notes := none, scheduled_date := none, status := some "scheduled",
    wood_size_label := none, wood_size_other := none,
    delivery_size_label := none, delivery_size_cords := some 5,
    assignees_json := none, created_by_user_id := none,
    created_by_display := none }

/-- Witness for C3: with stock 3/0, both scheduling the stored 5-cord draft
order and creating a 5-cord order in `scheduled` fail with the
insufficiency error, changing nothing. -/
theorem C3_witness :
    resolveWoodStock c3w_db.inventory_items = some c3w_stock ∧
    c3w_stock.quantity_on_hand - c3w_stock.reserved_quantity <
      c3w_wo.delivery_size_cords.getD 0 ∧
    ((update_work_order_status c3w_db c3w_input none).2 =
        some (.insufficientInventory (c3w_wo.delivery_size_cords.getD 0)
          (c3w_stock.quantity_on_hand - c3w_stock.reserved_quantity)) ∧
      (update_work_order_status c3w_db c3w_input none).1.work_orders =
        c3w_db.work_orders ∧
      (update_work_order_status c3w_db c3w_input none).1.inventory_items =
        c3w_db.inventory_items) ∧
    ((create_work_order c3w_db c3w_create_input none "w2" "d2").2 =
        some (.insufficientInventory (c3w_create_input.delivery_size_cords.getD 0)
          (c3w_stock.quantity_on_hand - c3w_stock.reserved_quantity)) ∧
      (create_work_order c3w_db c3w_create_input none "w2" "d2").1.work_orders =
        c3w_db.work_orders ∧
      (create_work_order c3w_db c3w_create_input none "w2" "d2").1.inventory_items =
        c3w_db.inventory_items) :=
  ⟨by decide, by decide,
    C3_insufficient_inventory_rolls_back.1 c3w_db c3w_input none c3w_wo c3w_stock
      (by decide) (by decide) (by decide) (by decide) (by decide) (by decide)
      (by decide) rfl,
    C3_insufficient_inventory_rolls_back.2 c3w_db c3w_create_input "w2" "d2" c3w_stock
      (by decide) (by decide) (by decide) (by decide)⟩

/-- Transaction-body lemma: when `updateWorkOrderStatusTx` commits and the
requested status differs from the stored one, the committed state carries
exactly the ledger-adjusted inventory for (current, next, resolved cords)
and the matching row's status is the requested one. -/
theorem txOk_characterization (db : DB) (input : WorkOrderStatusInput)
    (rv : String) (dc : Bool) (wo : WorkOrder) (db2 : DB)
    (hfind : findWorkOrder db input.work_order_id = some wo)
    (hne : input.status.getD wo.status ≠ wo.status)
    (h : updateWorkOrderStatusTx db input rv dc = .ok db2) :
    (∃ items, adjustInventoryForTransition wo.status (input.status.getD wo.status)
        (wo.delivery_size_cords.getD 0) db.inventory_items = .ok items ∧
      db2.inventory_items = items) ∧
    ∀ wo' ∈ db2.work_orders, wo'.id = input.work_order_id →
      wo'.is_deleted = false → wo'.status = input.status.getD wo.status := by
  simp only [updateWorkOrderStatusTx, hfind] at h
  split at h
  · exact Except.noConfusion h
  · split at h
    · exact Except.noConfusion h
    · split at h
      · exact Except.noConfusion h
      · split at h
        · rename_i hcur
          exact absurd hcur.symm hne
        · split at h
          · exact Except.noConfusion h
          · rename_i items heq
            injection h with h2
            subst h2
            refine ⟨⟨items, heq, rfl⟩, ?_⟩
            intro wo' hw' hid hdel
            simp only [List.mem_map] at hw'
            obtain ⟨wo0, _, rfl⟩ := hw'
            by_cases h0 : wo0.id = input.work_order_id ∧ wo0.is_deleted = false
            · rw [if_pos h0]
            · rw [if_neg h0] at hid hdel
              exact absurd ⟨hid, hdel⟩ h0

/-- C2: for every status transition of a stored, non-deleted work order
where the requested status differs from the current one, the command is
atomic: on success the inventory equals exactly the ledger adjustment for
(current status, next status, the order's resolved cord quantity) and the
matching row carries the new status; on any failure (ledger failures
included) the work orders and the inventory are unchanged — never a status
change into or out of a reserving status without the matching reservation
effect. -/
theorem C2_status_write_and_ledger_atomic (db : DB) (input : WorkOrderStatusInput)
    (role : Option String) (wo : WorkOrder)
    (hfind : findWorkOrder db input.work_order_id = some wo)
    (hne : input.status.getD wo.status ≠ wo.status) :
    ((update_work_order_status db input role).2 = none →
      (∃ items, adjustInventoryForTransition wo.status (input.status.getD wo.status)
          (wo.delivery_size_cords.getD 0) db.inventory_items = .ok items ∧
        (update_work_order_status db input role).1.inventory_items = items) ∧
      ∀ wo' ∈ (update_work_order_status db input role).1.work_orders,
        wo'.id = input.work_order_id → wo'.is_deleted = false →
          wo'.status = input.status.getD wo.status) ∧
    (∀ e, (update_work_order_status db input role).2 = some e →
      (update_work_order_status db input role).1.work_orders = db.work_orders ∧
      (update_work_order_status db input role).1.inventory_items = db.inventory_items) := by
  have hfind1 : findWorkOrder
      (audit_db db "update_work_order_status" (asciiLower (role.getD "admin")) "unknown")
      input.work_order_id = some wo := hfind
  cases hr : updateWorkOrderStatusTx
      (audit_db db "update_work_order_status" (asciiLower (role.getD "admin")) "unknown")
      input (asciiLower (role.getD "admin")) (input.is_driver.getD false) with
  | error e =>
    constructor
    · intro hnone
      simp only [update_work_order_status, hr] at hnone
      exact Option.noConfusion hnone
    · intro e' _
      simp only [update_work_order_status, hr]
      exact ⟨rfl, rfl⟩
  | ok db2 =>
    have hchar := txOk_characterization _ input _ _ wo db2 hfind1 hne hr
    constructor
    · intro _
      simp only [update_work_order_status, hr]
      exact hchar
    · intro e' he'
      exfalso
      simp only [update_work_order_status, hr] at he'
      exact Option.noConfusion he'

/-- Witness order for C2: a draft work order for 4 cords. -/
def c2w_wo : WorkOrder :=
  { id := "w1", client_id := some "c1", client_name := "Jane",
    status := "draft", scheduled_date := none, gate_combo := none,
    notes := none, telephone := none, physical_address_line1 := none,
    physical_address_city := none, physical_address_state := none,
    physical_address_postal_code := none, mileage := none,
    wood_size_label := none, wood_size_other := none,
    delivery_size_label := none, delivery_size_cords := some 4,
    assignees_json := none, created_by_display := none, is_deleted := false }

/-- Witness database for C2: the order plus stock 10/0. -/
def c2w_db : DB :=
  { clients := [], work_orders := [c2w_wo],
    inventory_items := [{ id := "inv1", name := "Firewood", unit := "cord",
                          quantity_on_hand := 10, reserved_quantity := 0,
                          is_deleted := false }],
    delivery_events := [], audit_logs := [] }

/-- Witness request for C2: schedule `w1`. -/
def c2w_input : WorkOrderStatusInput :=
  { work_order_id := "w1", status := some "scheduled", mileage := none,
    is_driver := none }

/-- Witness for C2 at a concrete transition `draft → scheduled`. -/
theorem C2_witness :
    findWorkOrder c2w_db c2w_input.work_order_id = some c2w_wo ∧
    c2w_input.status.getD c2w_wo.status ≠ c2w_wo.status ∧
    (((update_work_order_status c2w_db c2w_input none).2 = none →
      (∃ items, adjustInventoryForTransition c2w_wo.status
          (c2w_input.status.getD c2w_wo.status)
          (c2w_wo.delivery_size_cords.getD 0) c2w_db.inventory_items = .ok items ∧
        (update_work_order_status c2w_db c2w_input none).1.inventory_items = items) ∧
      ∀ wo' ∈ (update_work_order_status c2w_db c2w_input none).1.work_orders,
        wo'.id = c2w_input.work_order_id → wo'.is_deleted = false →
          wo'.status = c2w_input.status.getD c2w_wo.status) ∧
    (∀ e, (update_work_order_status c2w_db c2w_input none).2 = some e →
      (update_work_order_status c2w_db c2w_input none).1.work_orders =
        c2w_db.work_orders ∧
      (update_work_order_status c2w_db c2w_input none).1.inventory_items =
        c2w_db.inventory_items)) :=
  ⟨by decide, by decide,
    C2_status_write_and_ledger_atomic c2w_db c2w_input none c2w_wo
      (by decide) (by decide)⟩
